import Mathlib

/-!
Shallow embedding of the event ingestion and reconciliation pipeline of the
mongoDB-kafka-frontend-API repository.

Embedded source files:
* `src/models/Event.ts` (EventSchema) and `src/models/User.ts` (UserSchema):
  mongoose schemas, embedded as validation predicates over document records;
* `src/kafka/consumer.ts` (`KafkaConsumer`): `handleMessage`, `storeEvent`,
  `processEvent`, the per-type side-effect handlers, `storeFailedEvent`;
* `src/kafka/producer.ts` (`KafkaProducer`): `sendMessage` key selection;
* `src/controllers/eventController.ts` (`EventController.retryFailedEvents`).

Modelling conventions:
* JavaScript values flowing through the pipeline are embedded as `JsonVal`
  (JSON numbers restricted to integers; no claim depends on decimals).
* A thrown JS exception is an `Except.error` carrying a `JsError`;
  `try/catch` blocks are explicit `match`es on the `Except`.
* MongoDB collections are Lean lists; document ids are assigned by a counter.
* kafkajs delivers `message.offset` and `message.timestamp` as decimal
  strings; they are embedded directly as their integer values
  (`parseInt`/`new Date` round-trips).
* mongoose runs setters (trim/lowercase), then casts, then validators, then
  the save hits the unique index; duplicate key errors carry code 11000.
-/

/-- JSON-like runtime values (numbers restricted to integers). -/
inductive JsonVal where
  | null
  | bool (b : Bool)
  | num (n : Int)
  | str (s : String)
  | arr (elems : List JsonVal)
  | obj (fields : List (String × JsonVal))
deriving Repr

mutual

/-- Structural boolean equality on `JsonVal`. -/
def JsonVal.eqb : JsonVal → JsonVal → Bool
  | .null, .null => true
  | .bool a, .bool b => a == b
  | .num a, .num b => a == b
  | .str a, .str b => a == b
  | .arr a, .arr b => JsonVal.eqbList a b
  | .obj a, .obj b => JsonVal.eqbFields a b
  | _, _ => false

/-- Boolean equality on lists of `JsonVal`. -/
def JsonVal.eqbList : List JsonVal → List JsonVal → Bool
  | [], [] => true
  | a :: as, b :: bs => JsonVal.eqb a b && JsonVal.eqbList as bs
  | _, _ => false

/-- Boolean equality on association lists of `JsonVal`. -/
def JsonVal.eqbFields : List (String × JsonVal) → List (String × JsonVal) → Bool
  | [], [] => true
  | (k1, v1) :: as, (k2, v2) :: bs =>
    k1 == k2 && JsonVal.eqb v1 v2 && JsonVal.eqbFields as bs
  | _, _ => false

end

mutual

theorem JsonVal.eq_of_eqb : ∀ a b, JsonVal.eqb a b = true → a = b
  | .null, .null, _ => rfl
  | .bool _, .bool _, h => by
    simp only [JsonVal.eqb, beq_iff_eq] at h; exact congrArg JsonVal.bool h
  | .num _, .num _, h => by
    simp only [JsonVal.eqb, beq_iff_eq] at h; exact congrArg JsonVal.num h
  | .str _, .str _, h => by
    simp only [JsonVal.eqb, beq_iff_eq] at h; exact congrArg JsonVal.str h
  | .arr a, .arr b, h => congrArg JsonVal.arr (JsonVal.eqList_of_eqbList a b h)
  | .obj a, .obj b, h => congrArg JsonVal.obj (JsonVal.eqFields_of_eqbFields a b h)
  | .null, .bool _, h | .null, .num _, h | .null, .str _, h
  | .null, .arr _, h | .null, .obj _, h
  | .bool _, .null, h | .bool _, .num _, h | .bool _, .str _, h
  | .bool _, .arr _, h | .bool _, .obj _, h
  | .num _, .null, h | .num _, .bool _, h | .num _, .str _, h
  | .num _, .arr _, h | .num _, .obj _, h
  | .str _, .null, h | .str _, .bool _, h | .str _, .num _, h
  | .str _, .arr _, h | .str _, .obj _, h
  | .arr _, .null, h | .arr _, .bool _, h | .arr _, .num _, h
  | .arr _, .str _, h | .arr _, .obj _, h
  | .obj _, .null, h | .obj _, .bool _, h | .obj _, .num _, h
  | .obj _, .str _, h | .obj _, .arr _, h => by cases h

theorem JsonVal.eqList_of_eqbList : ∀ a b, JsonVal.eqbList a b = true → a = b
  | [], [], _ => rfl
  | a :: as, b :: bs, h => by
    simp only [JsonVal.eqbList, Bool.and_eq_true] at h
    rw [JsonVal.eq_of_eqb a b h.1, JsonVal.eqList_of_eqbList as bs h.2]
  | [], _ :: _, h | _ :: _, [], h => by cases h

theorem JsonVal.eqFields_of_eqbFields :
    ∀ a b, JsonVal.eqbFields a b = true → a = b
  | [], [], _ => rfl
  | (k1, v1) :: as, (k2, v2) :: bs, h => by
    simp only [JsonVal.eqbFields, Bool.and_eq_true, beq_iff_eq] at h
    rw [h.1.1, JsonVal.eq_of_eqb v1 v2 h.1.2,
      JsonVal.eqFields_of_eqbFields as bs h.2]
  | [], _ :: _, h | _ :: _, [], h => by cases h

end

mutual

theorem JsonVal.eqb_self : ∀ a, JsonVal.eqb a a = true
  | .null => rfl
  | .bool _ => by simp [JsonVal.eqb]
  | .num _ => by simp [JsonVal.eqb]
  | .str _ => by simp [JsonVal.eqb]
  | .arr a => JsonVal.eqbList_self a
  | .obj a => JsonVal.eqbFields_self a

theorem JsonVal.eqbList_self : ∀ a, JsonVal.eqbList a a = true
  | [] => rfl
  | a :: as => by
    simp only [JsonVal.eqbList, Bool.and_eq_true]
    exact ⟨JsonVal.eqb_self a, JsonVal.eqbList_self as⟩

theorem JsonVal.eqbFields_self : ∀ a, JsonVal.eqbFields a a = true
  | [] => rfl
  | (k, v) :: as => by
    simp [JsonVal.eqbFields, JsonVal.eqb_self v, JsonVal.eqbFields_self as]

end

instance : DecidableEq JsonVal := fun a b =>
  if h : JsonVal.eqb a b = true then
    isTrue (JsonVal.eq_of_eqb a b h)
  else
    isFalse (fun he => h (he ▸ JsonVal.eqb_self a))

/-- JavaScript errors as observed by the source's catch blocks: mongo
duplicate-key errors carry `code === 11000`, mongoose validation and cast
errors, `TypeError` from property access on `null`/`undefined`. -/
inductive JsError where
  | validation (msg : String)
  | castError (msg : String)
  | duplicateKey (msg : String)
  | typeError (msg : String)
  | jsSyntax (msg : String)
  | generic (msg : String)
deriving Repr, BEq, DecidableEq

instance {ε α : Type} [DecidableEq ε] [DecidableEq α] : DecidableEq (Except ε α) :=
  fun x y =>
  match x, y with
  | .ok a, .ok b =>
    match decEq a b with
    | isTrue h => isTrue (h ▸ rfl)
    | isFalse h => isFalse (fun he => h (Except.ok.inj he))
  | .error a, .error b =>
    match decEq a b with
    | isTrue h => isTrue (h ▸ rfl)
    | isFalse h => isFalse (fun he => h (Except.error.inj he))
  | .ok _, .error _ => isFalse (fun he => Except.noConfusion he)
  | .error _, .ok _ => isFalse (fun he => Except.noConfusion he)

/-- `error.code` as read by `handleUserCreated`: 11000 for duplicate keys. -/
def JsError.code : JsError → Option Nat
  | .duplicateKey _ => some 11000
  | _ => none

/-- `error.message`. -/
def JsError.message : JsError → String
  | .validation m => m
  | .castError m => m
  | .duplicateKey m => m
  | .typeError m => m
  | .jsSyntax m => m
  | .generic m => m

/-- JavaScript truthiness of a value that may be `undefined` (`none`). -/
def jsTruthy : Option JsonVal → Bool
  | none => false
  | some .null => false
  | some (.bool b) => b
  | some (.num n) => n != 0
  | some (.str s) => s != ""
  | some (.arr _) => true
  | some (.obj _) => true

/-- Object-field lookup of JS property access, on a value known to be
neither `null` nor `undefined` (primitives have no own fields). -/
def JsonVal.getField : JsonVal → String → Option JsonVal
  | .obj fields, k => (fields.find? (fun p => p.1 == k)).map (·.2)
  | _, _ => none

/-- JS property access `v.k` where `v` may be `undefined`; throws a
`TypeError` on `undefined` or `null`, otherwise yields the field (or
`undefined`). -/
def jsGet (v : Option JsonVal) (k : String) : Except JsError (Option JsonVal) :=
  match v with
  | none => .error (.typeError ("Cannot read properties of undefined (reading " ++ k ++ ")"))
  | some .null => .error (.typeError ("Cannot read properties of null (reading " ++ k ++ ")"))
  | some w => .ok (w.getField k)

/-- mongoose cast of a runtime value to a `String` schema path: strings kept,
numbers and booleans stringified, objects/arrays/null are not castable. -/
def castString : JsonVal → Option String
  | .str s => some s
  | .num n => some (toString n)
  | .bool b => some (cond b "true" "false")
  | _ => none

/-- mongoose cast to a `Number` schema path (integer-valued model). -/
def castNumber : JsonVal → Option Int
  | .num n => some n
  | _ => none

/-- JS string whitespace for `trim` (the characters occurring in practice). -/
def isJsWs (c : Char) : Bool :=
  c == ' ' || c == '\t' || c == '\n' || c == '\r'

/-- `String.prototype.trim` (mongoose `trim: true` setter), structurally:
drop whitespace from both ends. -/
def jsTrim (s : String) : String :=
  String.mk (((s.toList.dropWhile isJsWs).reverse.dropWhile isJsWs).reverse)

/-- ASCII lowering of one character (the `lowercase: true` setter;
non-ASCII letters are carried unchanged in this model). -/
def asciiLower (c : Char) : Char :=
  if 'A' ≤ c ∧ c ≤ 'Z' then Char.ofNat (c.toNat + 32) else c

/-- `String.prototype.toLowerCase` restricted to ASCII. -/
def jsToLower (s : String) : String :=
  String.mk (s.toList.map asciiLower)

/-- Word character of the mongoose email regex: `\w` = `[A-Za-z0-9_]`. -/
def wordChar (c : Char) : Bool :=
  c.isAlpha || c.isDigit || c == '_'

/-- `\w+`: all remainders after consuming one or more word characters. -/
def matchWplus : List Char → List (List Char)
  | [] => []
  | c :: cs => if wordChar c then cs :: matchWplus cs else []

/-- `[.-]?\w+`: an optional dot-or-hyphen separator then `\w+`. -/
def matchSepW (l : List Char) : List (List Char) :=
  (match l with
   | c :: cs => if c == '.' || c == '-' then matchWplus cs else []
   | [] => []) ++ matchWplus l

/-- Kleene star of a fragment, fuelled (each fragment use consumes input). -/
def matchStar (f : List Char → List (List Char)) : Nat → List Char → List (List Char)
  | 0, l => [l]
  | n + 1, l => l :: (f l).flatMap (matchStar f n)

/-- `\.\w{2,3}`: a literal dot then two or three word characters. -/
def matchTld : List Char → List (List Char)
  | '.' :: c1 :: c2 :: rest =>
    if wordChar c1 && wordChar c2 then
      (match rest with
       | c3 :: rest2 => if wordChar c3 then [rest, rest2] else [rest]
       | [] => [rest])
    else []
  | _ => []

/-- `(\.\w{2,3})+`, fuelled. -/
def matchTldPlus (fuel : Nat) (l : List Char) : List (List Char) :=
  (matchTld l).flatMap (matchStar matchTld fuel)

/-- The `UserSchema` email validator
`/^\w+([.-]?\w+)*@\w+([.-]?\w+)*(\.\w{2,3})+$/`, as a backtracking matcher:
the string matches iff some path through the pattern consumes it all. -/
def emailRegexOk (s : String) : Bool :=
  let cs := s.toList
  let n := cs.length
  let afterLocal := (matchWplus cs).flatMap (matchStar matchSepW n)
  let afterAt := afterLocal.flatMap fun r =>
    match r with
    | '@' :: rest => [rest]
    | _ => []
  let afterDomain := afterAt.flatMap fun r =>
    (matchWplus r).flatMap (matchStar matchSepW n)
  let afterTld := afterDomain.flatMap (matchTldPlus n)
  afterTld.contains []

/-- `metadata` subdocument of `EventSchema` (`src/models/Event.ts`).
`retryCount` has schema default 0, which mongoose applies whenever a
document is instantiated, so it is always present on stored documents. -/
structure EventMetadata where
  kafkaOffset : Option Int
  kafkaPartition : Option Int
  kafkaTopic : Option String
  retryCount : Int
  errorMessage : Option String
deriving Repr, DecidableEq

/-- A stored `Event` document (`src/models/Event.ts`); `id` is the `_id`
assigned at insertion. -/
structure EventDoc where
  id : Nat
  type : String
  userId : Option String
  data : JsonVal
  source : String
  timestamp : Int
  processed : Bool
  metadata : EventMetadata
deriving Repr, DecidableEq

/-- The `enum` of `EventSchema.type` (`src/models/Event.ts`), verbatim. -/
def eventTypeEnum : List String :=
  ["user.created", "user.updated", "user.deleted", "user.login",
   "user.logout", "order.created", "order.updated", "order.cancelled",
   "payment.processed", "notification.sent", "purchase.created",
   "purchase.updated", "purchase.cancelled", "system.health", "custom"]

/-- The `enum` of `EventSchema.source`. -/
def eventSourceEnum : List String := ["api", "kafka", "system", "webhook"]

/-- `EventSchema` validation run by `event.save()`: `type` is required,
trimmed (done by the caller) and must be in the enum; `source` must be in
its enum; `data` is required (Mixed: fails only on null/undefined). -/
def eventDocValid (e : EventDoc) : Bool :=
  eventTypeEnum.contains e.type
    && eventSourceEnum.contains e.source
    && e.data != JsonVal.null

/-- A stored `User` document (`src/models/User.ts`); `id` models the
hex-string `_id` ObjectId, `email` and `name` are stored post-setters
(trim, lowercase). The `metadata` subtree is carried as its `source` tag
(the only field the embedded code writes). -/
structure UserDoc where
  id : String
  email : String
  name : String
  age : Option Int
  isActive : Bool
  metadataSource : String
deriving Repr, DecidableEq

/-- Mongo ObjectId hex string generated for the n-th inserted user. -/
def objectIdStr (n : Nat) : String :=
  let ds := Nat.toDigits 16 n
  String.mk (List.replicate (24 - ds.length) '0' ++ ds)

/-- express/mongoose 24-hex-character ObjectId test (used by
`findByIdAndUpdate` casting). -/
def isMongoId (s : String) : Bool :=
  s.length == 24 && s.toList.all fun c =>
    c.isDigit || (decide ('a' ≤ c) && decide (c ≤ 'f'))
      || (decide ('A' ≤ c) && decide (c ≤ 'F'))

/-- Field lookup on a spread JS object: only a genuine object contributes
named fields (spreading strings yields numeric keys, other primitives and
null/undefined yield none). -/
def spreadField (d : Option JsonVal) (k : String) : Option JsonVal :=
  match d with
  | some (.obj fs) => JsonVal.getField (.obj fs) k
  | _ => none

/-- mongoose cast of a value to the Boolean path `isActive`
(accepts booleans, 0/1 and the strings "true"/"false"). -/
def castBoolean : JsonVal → Option Bool
  | .bool b => some b
  | .num 0 => some false
  | .num 1 => some true
  | .str "true" => some true
  | .str "false" => some false
  | _ => none

/-- The `email` path on `new User(...)`/`save()`: required, cast to
string, setters `trim` + `lowercase`, then the schema regex validator. -/
def userEmailStep (data : Option JsonVal) : Except JsError String :=
  match spreadField data "email" with
  | none | some .null =>
    throw (.validation "User validation failed: email: path email is required")
  | some v =>
    match castString v with
    | none => throw (.castError "User validation failed: email: cast to string failed")
    | some s =>
      let e := jsToLower (jsTrim s)
      if emailRegexOk e then pure e
      else throw (.validation "User validation failed: email: please enter a valid email")

/-- The `name` path: required, cast to string, `trim`, length 2..100. -/
def userNameStep (data : Option JsonVal) : Except JsError String :=
  match spreadField data "name" with
  | none | some .null =>
    throw (.validation "User validation failed: name: path name is required")
  | some v =>
    match castString v with
    | none => throw (.castError "User validation failed: name: cast to string failed")
    | some s =>
      let nm := jsTrim s
      if 2 ≤ nm.length && nm.length ≤ 100 then pure nm
      else throw (.validation "User validation failed: name: length out of range")

/-- The `age` path: optional, cast to number, range 0..150. -/
def userAgeStep (data : Option JsonVal) : Except JsError (Option Int) :=
  match spreadField data "age" with
  | none | some .null => pure none
  | some v =>
    match castNumber v with
    | none => throw (.castError "User validation failed: age: cast to number failed")
    | some n =>
      if 0 ≤ n && n ≤ 150 then pure (some n)
      else throw (.validation "User validation failed: age: out of range")

/-- The `isActive` path: optional boolean, schema default `true`. -/
def userActiveStep (data : Option JsonVal) : Except JsError Bool :=
  match spreadField data "isActive" with
  | none | some .null => pure true
  | some v =>
    match castBoolean v with
    | none => throw (.castError "User validation failed: isActive: cast to boolean failed")
    | some b => pure b

/-- `new User({...data, metadata: {source, tags, preferences}})` followed by
`user.save()` (`KafkaConsumer.handleUserCreated`): the per-path setters,
casts and `UserSchema` validators (factored above, each a function of the
spread `data` only), then the unique index on `email` (duplicate → error
code 11000). Returns the updated collection and next id counter. -/
def userSave (users : List UserDoc) (nextUserId : Nat) (data : Option JsonVal)
    (metadataSource : String) : Except JsError (List UserDoc × Nat) := do
  let email ← userEmailStep data
  let name ← userNameStep data
  let age ← userAgeStep data
  let isActive ← userActiveStep data
  if users.any (fun u => u.email == email) then
    throw (.duplicateKey "E11000 duplicate key error: index email_1")
  else
    pure (users ++ [{ id := objectIdStr nextUserId, email := email, name := name,
                      age := age, isActive := isActive,
                      metadataSource := metadataSource }], nextUserId + 1)

/-- System state: the two MongoDB collections plus id counters and the
clock read by `Date.now()` / `new Date()`. -/
structure SysState where
  events : List EventDoc
  users : List UserDoc
  nextEventId : Nat
  nextUserId : Nat
  now : Int
deriving Repr, DecidableEq

/-- `event.save()`: run `EventSchema` validation, then append the document
to the collection (insertion order) and bump the id counter. -/
def eventSave (s : SysState) (e : EventDoc) : Except JsError SysState :=
  if eventDocValid e then
    .ok { s with events := s.events ++ [e], nextEventId := s.nextEventId + 1 }
  else
    .error (.validation "Event validation failed: invalid enum value")

/-- The update `{...data, updatedAt: new Date()}` applied through
`User.findByIdAndUpdate(..., {new: true, runValidators: true})`
(`KafkaConsumer.handleUserUpdated`): each `UserSchema` path present in the
update goes through setters, casts and validators; absent paths keep
their stored value. -/
def applyUserUpdate (u : UserDoc) (d : Option JsonVal) : Except JsError UserDoc := do
  let email ← match spreadField d "email" with
    | none => pure u.email
    | some .null =>
      throw (.validation "User validation failed: email: path email is required")
    | some v =>
      match castString v with
      | none => throw (.castError "User validation failed: email: cast to string failed")
      | some s =>
        let e := jsToLower (jsTrim s)
        if emailRegexOk e then pure e
        else throw (.validation "User validation failed: email: please enter a valid email")
  let name ← match spreadField d "name" with
    | none => pure u.name
    | some .null =>
      throw (.validation "User validation failed: name: path name is required")
    | some v =>
      match castString v with
      | none => throw (.castError "User validation failed: name: cast to string failed")
      | some s =>
        let nm := jsTrim s
        if 2 ≤ nm.length && nm.length ≤ 100 then pure nm
        else throw (.validation "User validation failed: name: length out of range")
  let age ← match spreadField d "age" with
    | none => pure u.age
    | some .null => pure none
    | some v =>
      match castNumber v with
      | none => throw (.castError "User validation failed: age: cast to number failed")
      | some n =>
        if 0 ≤ n && n ≤ 150 then pure (some n)
        else throw (.validation "User validation failed: age: out of range")
  let isActive ← match spreadField d "isActive" with
    | none => pure u.isActive
    | some .null => pure u.isActive
    | some v =>
      match castBoolean v with
      | none => throw (.castError "User validation failed: isActive: cast to boolean failed")
      | some b => pure b
  pure { u with email := email, name := name, age := age, isActive := isActive }

namespace KafkaConsumer

/-- `KafkaConsumer.handleUserCreated`: build and save the User; a mongo
error with `code === 11000` (duplicate email) is logged as a warning and
treated as success, any other error is rethrown. -/
def handleUserCreated (s : SysState) (d : Option JsonVal) : Except JsError SysState :=
  match userSave s.users s.nextUserId d "kafka" with
  | .ok (us, nid) => .ok { s with users := us, nextUserId := nid }
  | .error e => if e.code == some 11000 then .ok s else .error e

/-- `KafkaConsumer.handleUserUpdated`: `findByIdAndUpdate` by the raw
`userId` value. An `undefined`/`null` id matches no document (warning, not
an error); a value that cannot cast to an ObjectId throws a CastError; a
missing target is a warning; otherwise the update runs with validators and
the unique email index. -/
def handleUserUpdated (s : SysState) (userId : Option JsonVal) (d : Option JsonVal) :
    Except JsError SysState :=
  match userId with
  | none | some .null => .ok s
  | some (.str uid) =>
    if isMongoId uid then
      match s.users.find? (fun u => u.id == uid) with
      | none => .ok s
      | some u =>
        match applyUserUpdate u d with
        | .error e => .error e
        | .ok u2 =>
          if s.users.any (fun w => !(w.id == uid) && w.email == u2.email) then
            .error (.duplicateKey "E11000 duplicate key error: index email_1")
          else
            .ok { s with users := s.users.map fun w => if w.id == uid then u2 else w }
    else .error (.castError "Cast to ObjectId failed for value at path id")
  | some _ => .error (.castError "Cast to ObjectId failed for value at path id")

/-- `KafkaConsumer.handleUserDeleted`: `findByIdAndUpdate(userId,
{isActive: false})`; same id casting as updates, missing target is a
warning only. -/
def handleUserDeleted (s : SysState) (userId : Option JsonVal) : Except JsError SysState :=
  match userId with
  | none | some .null => .ok s
  | some (.str uid) =>
    if isMongoId uid then
      .ok { s with users := s.users.map fun u =>
              if u.id == uid then { u with isActive := false } else u }
    else .error (.castError "Cast to ObjectId failed for value at path id")
  | some _ => .error (.castError "Cast to ObjectId failed for value at path id")

/-- `KafkaConsumer.handleOrderCreated`: logging only, but the log line
reads `data.id` and `data.userId`, which throws a TypeError when `data` is
`undefined` or `null`. -/
def handleOrderCreated (s : SysState) (d : Option JsonVal) : Except JsError SysState := do
  let _ ← jsGet d "id"
  let _ ← jsGet d "userId"
  pure s

/-- `KafkaConsumer.handleNotificationSent`: logging only; reads `data.id`,
`data.userId` and `data.notificationType`. -/
def handleNotificationSent (s : SysState) (d : Option JsonVal) : Except JsError SysState := do
  let _ ← jsGet d "id"
  let _ ← jsGet d "userId"
  let _ ← jsGet d "notificationType"
  pure s

/-- `KafkaConsumer.handlePurchaseCreated`: logging only; reads
`data.userId`, `data.username` and the nested `data.data.price`,
`data.data.product`, `data.data.category`, `data.data.timestamp`, so it
throws when `data` or `data.data` is `undefined`/`null`. The internal
catch rethrows. -/
def handlePurchaseCreated (s : SysState) (d : Option JsonVal) : Except JsError SysState := do
  let _ ← jsGet d "userId"
  let _ ← jsGet d "username"
  let dd ← jsGet d "data"
  let _ ← jsGet dd "price"
  let _ ← jsGet dd "product"
  let _ ← jsGet dd "category"
  let _ ← jsGet dd "timestamp"
  pure s

/-- `KafkaConsumer.processEvent`: destructure `{type, data, userId}` from
the decoded value and dispatch on `type` with a JS `switch` (strict string
equality); unknown types fall to the logged no-op default. Errors are
logged and rethrown. -/
def processEvent (s : SysState) (json : JsonVal) : Except JsError SysState := do
  let t ← jsGet (some json) "type"
  let d ← jsGet (some json) "data"
  let u ← jsGet (some json) "userId"
  match t with
  | some (.str "user.created") => handleUserCreated s d
  | some (.str "user.updated") => handleUserUpdated s u d
  | some (.str "user.deleted") => handleUserDeleted s u
  | some (.str "order.created") => handleOrderCreated s d
  | some (.str "notification.sent") => handleNotificationSent s d
  | some (.str "purchase.created") => handlePurchaseCreated s d
  | _ => pure s

end KafkaConsumer

/-- The body of a broker message as seen after `message.value?.toString()`:
either a string `JSON.parse` rejects (or parses to a value whose property
access immediately fails in a way `JSON.parse` callers observe as the
thrown error), or a string parsing to a structured value. The parse error
message of the runtime is carried on the malformed constructor. -/
inductive RawBody where
  | malformed (raw : String) (parseErrMsg : String)
  | wellFormed (raw : String) (json : JsonVal)
deriving Repr, DecidableEq

/-- The raw string of the body. -/
def RawBody.raw : RawBody → String
  | .malformed r _ => r
  | .wellFormed r _ => r

/-- One broker message as delivered by kafkajs (`EachMessagePayload`):
`offset` and `timestamp` are embedded as their numeric values, `value` is
`none` when the message has no body. -/
structure KafkaMessage where
  topic : String
  partition : Int
  offset : Int
  timestamp : Option Int
  value : Option RawBody
deriving Repr, DecidableEq

namespace KafkaConsumer

/-- The event literal built in `KafkaConsumer.handleMessage` lines 553-566
and the casts `new Event(...)` applies to it:
`type: eventData.type || 'custom'` (then string cast + trim),
`userId: eventData.userId` (optional string cast),
`data: eventData.data || eventData`,
`source: 'kafka'`, `timestamp: new Date(message.timestamp || Date.now())`,
`processed: false`, metadata from the broker coordinates with
`retryCount: 0`. Property access on a `null` parse result throws. -/
def mkConsumedEvent (s : SysState) (m : KafkaMessage) (json : JsonVal) :
    Except JsError EventDoc := do
  let tRaw ← jsGet (some json) "type"
  let uRaw ← jsGet (some json) "userId"
  let dRaw ← jsGet (some json) "data"
  let typeVal : JsonVal := if jsTruthy tRaw then tRaw.getD (.str "custom") else .str "custom"
  let dataVal : JsonVal := if jsTruthy dRaw then dRaw.getD json else json
  let tStr ← match castString typeVal with
    | some t => pure (jsTrim t)
    | none => throw (.castError "Event validation failed: type: cast to string failed")
  let uStr ← match uRaw with
    | none | some .null => pure none
    | some v =>
      match castString v with
      | some u => pure (some u)
      | none => throw (.castError "Event validation failed: userId: cast to string failed")
  pure { id := s.nextEventId, type := tStr, userId := uStr, data := dataVal,
         source := "kafka", timestamp := m.timestamp.getD s.now,
         processed := false,
         metadata := { kafkaOffset := some m.offset,
                       kafkaPartition := some m.partition,
                       kafkaTopic := some m.topic,
                       retryCount := 0, errorMessage := none } }

/-- `KafkaConsumer.storeEvent`: save, logging and rethrowing failures. -/
def storeEvent (s : SysState) (e : EventDoc) : Except JsError SysState :=
  eventSave s e

/-- `KafkaConsumer.storeFailedEvent`: build a synthetic `system.error`
Event holding the raw body and the error in `data`, broker coordinates
with `retryCount: 1` and the error message in `metadata`, and try to save
it; a failure of that save is only logged (nothing is rethrown). -/
def storeFailedEvent (s : SysState) (m : KafkaMessage) (raw : String) (err : JsError) :
    SysState :=
  let failed : EventDoc :=
    { id := s.nextEventId, type := "system.error", userId := none,
      data := .obj [("originalMessage", .str raw), ("error", .str err.message),
                    ("topic", .str m.topic), ("partition", .num m.partition),
                    ("offset", .num m.offset)],
      source := "kafka", timestamp := s.now, processed := false,
      metadata := { kafkaOffset := some m.offset,
                    kafkaPartition := some m.partition,
                    kafkaTopic := some m.topic,
                    retryCount := 1, errorMessage := some err.message } }
  match eventSave s failed with
  | .ok s2 => s2
  | .error _ => s

/-- `KafkaConsumer.handleMessage`: the whole per-message pipeline.
Empty or absent bodies return early. A decode failure, a failed save of
the decoded Event, or a side-effect handler error all fall to the catch
block, which calls `storeFailedEvent` on the state at the throw point.
No branch rethrows to the broker client. -/
def handleMessage (s : SysState) (m : KafkaMessage) : SysState :=
  match m.value with
  | none => s
  | some body =>
    if body.raw == "" then s
    else
      match body with
      | .malformed raw perr => storeFailedEvent s m raw (.jsSyntax perr)
      | .wellFormed raw json =>
        match mkConsumedEvent s m json with
        | .error e => storeFailedEvent s m raw e
        | .ok doc =>
          match storeEvent s doc with
          | .error e => storeFailedEvent s m raw e
          | .ok s1 =>
            match processEvent s1 json with
            | .error e => storeFailedEvent s1 m raw e
            | .ok s2 => s2

end KafkaConsumer

namespace KafkaProducer

/-- JS `a || b` on an optional value. -/
def jsOrElse (a : Option JsonVal) (b : JsonVal) : JsonVal :=
  match a with
  | some v => if jsTruthy (some v) then v else b
  | none => b

/-- What `producer.send` receives for one message in
`KafkaProducer.sendMessage`: the routing key, the serialized value and the
headers (the value is carried structurally; kafkajs receives its
`JSON.stringify`). -/
structure SentRecord where
  topic : String
  key : JsonVal
  value : JsonVal
  headerContentType : String
  headerSource : String
  headerMessageType : JsonVal
deriving Repr, DecidableEq

/-- `KafkaProducer.sendMessage(topic, message, key?)`: throws when the
producer is not connected; otherwise the kafka key is
`key || message.userId || 'default'` and the headers carry
`content-type: application/json`, `source: api` and
`message-type: message.type || 'unknown'`. -/
def sendMessage (isConnected : Bool) (topic : String) (message : JsonVal)
    (key : Option String) : Except JsError SentRecord :=
  if !isConnected then
    .error (.generic "Kafka producer not connected")
  else
    .ok { topic := topic,
          key := jsOrElse (key.map .str)
                   (jsOrElse (message.getField "userId") (.str "default")),
          value := message,
          headerContentType := "application/json",
          headerSource := "api",
          headerMessageType := jsOrElse (message.getField "type") (.str "unknown") }

end KafkaProducer

namespace EventController

/-- The selection query of `EventController.retryFailedEvents`:
`Event.find({processed: false, 'metadata.retryCount': {$lt: 3}})
.sort({timestamp: 1}).limit(parseInt(limit))` with
`const { limit = 10 } = req.query`. -/
def retrySelection (s : SysState) (q : Option Nat) : List EventDoc :=
  (List.insertionSort (fun a b => a.timestamp ≤ b.timestamp)
      (s.events.filter fun e => !e.processed && e.metadata.retryCount < 3)).take
    (q.getD 10)

/-- `EventController.retryFailedEvents`: select the batch, and for each
selected event `$inc` its `metadata.retryCount`, `$unset` its
`metadata.errorMessage`, then set `processed: true` (the actual retry
logic is a placeholder: no side-effect handler is invoked). Returns the
state and the reported `retriedCount`. -/
def retryFailedEvents (s : SysState) (q : Option Nat) : SysState × Nat :=
  let sel := retrySelection s q
  let s2 :=
    { s with events := s.events.map fun e =>
        if sel.any (fun f => f.id == e.id) then
          { e with processed := true,
                   metadata := { e.metadata with
                                 retryCount := e.metadata.retryCount + 1,
                                 errorMessage := none } }
        else e }
  (s2, sel.length)

end EventController

/-- Number of stored users carrying a given (normalized) email. -/
def countUsersWithEmail (us : List UserDoc) (e : String) : Nat :=
  (us.filter fun u => u.email == e).length

/-- An initial state: empty collections, clock at 1000. -/
def s0 : SysState :=
  { events := [], users := [], nextEventId := 0, nextUserId := 0, now := 1000 }

/-- `data` of a well-formed `user.created` payload. -/
def dataA : JsonVal := .obj [("email", .str "a@x.com"), ("name", .str "Ann")]

/-- A well-formed `user.created` message value. -/
def jsonA : JsonVal := .obj [("type", .str "user.created"), ("data", dataA)]

/-- A broker message carrying `jsonA` on `user-events`. -/
def msgA : KafkaMessage :=
  { topic := "user-events", partition := 0, offset := 5, timestamp := some 111,
    value := some (.wellFormed "payloadA" jsonA) }

/-- The Event document `handleMessage` builds for `msgA`. -/
def docA : EventDoc :=
  { id := 0, type := "user.created", userId := none, data := dataA,
    source := "kafka", timestamp := 111, processed := false,
    metadata := { kafkaOffset := some 5, kafkaPartition := some 0,
                  kafkaTopic := some "user-events", retryCount := 0,
                  errorMessage := none } }

/-- The state after the first delivery of `msgA` is fully handled. -/
def stateAfterA : SysState :=
  { events := [docA],
    users := [{ id := objectIdStr 0, email := "a@x.com", name := "Ann",
                age := none, isActive := true, metadataSource := "kafka" }],
    nextEventId := 1, nextUserId := 1, now := 1000 }

/-- The state after `handleUserCreated` alone runs on `dataA` from `s0`. -/
def userStateAfterA : SysState :=
  { events := [],
    users := [{ id := objectIdStr 0, email := "a@x.com", name := "Ann",
                age := none, isActive := true, metadataSource := "kafka" }],
    nextEventId := 0, nextUserId := 1, now := 1000 }

/-- `data` lacking the required `email`: its `user.created` handler throws. -/
def dNoEmail : JsonVal := .obj [("name", .str "NoMail")]

/-- A decodable `user.created` payload whose handler fails validation. -/
def jsonNoEmail : JsonVal := .obj [("type", .str "user.created"), ("data", dNoEmail)]

/-- A broker message carrying `jsonNoEmail`. -/
def msgNoEmail : KafkaMessage :=
  { topic := "user-events", partition := 0, offset := 7, timestamp := some 112,
    value := some (.wellFormed "payloadB" jsonNoEmail) }

/-- The Event document `handleMessage` builds for `msgNoEmail`. -/
def docNoEmail : EventDoc :=
  { id := 0, type := "user.created", userId := none, data := dNoEmail,
    source := "kafka", timestamp := 112, processed := false,
    metadata := { kafkaOffset := some 7, kafkaPartition := some 0,
                  kafkaTopic := some "user-events", retryCount := 0,
                  errorMessage := none } }

/-- The state holding just the persisted `docNoEmail`. -/
def stateAfterStoreNoEmail : SysState :=
  { events := [docNoEmail], users := [], nextEventId := 1, nextUserId := 0, now := 1000 }

/-- A broker message whose body is not valid JSON. -/
def msgBad : KafkaMessage :=
  { topic := "user-events", partition := 0, offset := 6, timestamp := none,
    value := some (.malformed "not-json" "Unexpected token o in JSON at position 1") }

/-- A decodable payload whose `type` is outside the `EventSchema` enum. -/
def jsonUnknown : JsonVal :=
  .obj [("type", .str "user.signup"), ("data", .obj [("email", .str "b@x.com")])]

/-- A broker message carrying `jsonUnknown`. -/
def msgUnknown : KafkaMessage :=
  { topic := "user-events", partition := 0, offset := 8, timestamp := some 113,
    value := some (.wellFormed "payloadC" jsonUnknown) }

/-- A pending (unprocessed, retryCount 0) stored event with timestamp `i`. -/
def mkPendingEvent (i : Nat) : EventDoc :=
  { id := i, type := "custom", userId := none, data := .obj [],
    source := "kafka", timestamp := Int.ofNat i, processed := false,
    metadata := { kafkaOffset := none, kafkaPartition := none,
                  kafkaTopic := none, retryCount := 0, errorMessage := none } }

/-- A state with 51 retry-eligible events. -/
def s51 : SysState :=
  { events := (List.range 51).map mkPendingEvent, users := [],
    nextEventId := 51, nextUserId := 0, now := 2000 }

/-- A processed event (not retry-eligible). -/
def evDone : EventDoc :=
  { mkPendingEvent 100 with id := 100, processed := true }

/-- An unprocessed event at the retry ceiling (retryCount 3). -/
def evCeiling : EventDoc :=
  { mkPendingEvent 101 with
    id := 101,
    metadata := { (mkPendingEvent 101).metadata with retryCount := 3 } }

/-- A small mixed state for exercising the retry selection. -/
def sRetry : SysState :=
  { events := [evDone, mkPendingEvent 9, evCeiling, mkPendingEvent 4],
    users := [], nextEventId := 102, nextUserId := 0, now := 2000 }

/-- A producer message with no `userId` field. -/
def msgSys : JsonVal := .obj [("type", .str "system.health"), ("data", .obj [])]

/-- A producer message with `userId` `"u1"`. -/
def msgWithUser : JsonVal :=
  .obj [("type", .str "user.created"), ("userId", .str "u1")]

/-- A broker message with no body at all. -/
def msgEmpty : KafkaMessage :=
  { topic := "user-events", partition := 0, offset := 9, timestamp := none,
    value := none }

/-- A broker message with an empty-string body. -/
def msgBlank : KafkaMessage :=
  { topic := "user-events", partition := 0, offset := 10, timestamp := none,
    value := some (.wellFormed "" .null) }

/-- The record `producer.send` receives for `msgWithUser` with no key. -/
def sentWithUser : KafkaProducer.SentRecord :=
  { topic := "user-events", key := .str "u1", value := msgWithUser,
    headerContentType := "application/json", headerSource := "api",
    headerMessageType := .str "user.created" }

instance : IsTotal EventDoc (fun a b => a.timestamp ≤ b.timestamp) :=
  ⟨fun a b => le_total a.timestamp b.timestamp⟩

instance : IsTrans EventDoc (fun a b => a.timestamp ≤ b.timestamp) :=
  ⟨fun _ _ _ hab hbc => le_trans hab hbc⟩

/-- The quarantine insert of `storeFailedEvent` always fails `EventSchema`
validation, because `system.error` is missing from the `type` enum; the
inner catch swallows the failure, so the state is returned unchanged. -/
theorem storeFailedEvent_rejected (s : SysState) (m : KafkaMessage) (raw : String)
    (err : JsError) : KafkaConsumer.storeFailedEvent s m raw err = s := rfl

theorem eventSave_ok_events {s s' : SysState} {e : EventDoc}
    (h : eventSave s e = .ok s') : s'.events = s.events ++ [e] := by
  unfold eventSave at h
  split at h
  · cases h; rfl
  · cases h

theorem handleUserCreated_ok_events {s s' : SysState} {d : Option JsonVal}
    (h : KafkaConsumer.handleUserCreated s d = .ok s') : s'.events = s.events := by
  unfold KafkaConsumer.handleUserCreated at h
  repeat' split at h
  all_goals (cases h; try rfl)

theorem handleUserUpdated_ok_events {s s' : SysState} {u d : Option JsonVal}
    (h : KafkaConsumer.handleUserUpdated s u d = .ok s') : s'.events = s.events := by
  unfold KafkaConsumer.handleUserUpdated at h
  repeat' split at h
  all_goals (cases h; try rfl)

theorem handleUserDeleted_ok_events {s s' : SysState} {u : Option JsonVal}
    (h : KafkaConsumer.handleUserDeleted s u = .ok s') : s'.events = s.events := by
  unfold KafkaConsumer.handleUserDeleted at h
  repeat' split at h
  all_goals (cases h; try rfl)

theorem handleOrderCreated_ok_events {s s' : SysState} {d : Option JsonVal}
    (h : KafkaConsumer.handleOrderCreated s d = .ok s') : s'.events = s.events := by
  unfold KafkaConsumer.handleOrderCreated at h
  simp only [bind, Except.bind] at h
  repeat' split at h
  all_goals (cases h; try rfl)

theorem handleNotificationSent_ok_events {s s' : SysState} {d : Option JsonVal}
    (h : KafkaConsumer.handleNotificationSent s d = .ok s') : s'.events = s.events := by
  unfold KafkaConsumer.handleNotificationSent at h
  simp only [bind, Except.bind] at h
  repeat' split at h
  all_goals (cases h; try rfl)

theorem handlePurchaseCreated_ok_events {s s' : SysState} {d : Option JsonVal}
    (h : KafkaConsumer.handlePurchaseCreated s d = .ok s') : s'.events = s.events := by
  unfold KafkaConsumer.handlePurchaseCreated at h
  simp only [bind, Except.bind] at h
  repeat' split at h
  all_goals (cases h; try rfl)

/-- The side-effect handlers mutate only the User collection: a successful
`processEvent` leaves the Event collection untouched. -/
theorem processEvent_ok_events {s s' : SysState} {j : JsonVal}
    (h : KafkaConsumer.processEvent s j = .ok s') : s'.events = s.events := by
  unfold KafkaConsumer.processEvent at h
  simp only [bind, Except.bind] at h
  repeat' split at h
  all_goals first
    | exact handleUserCreated_ok_events h
    | exact handleUserUpdated_ok_events h
    | exact handleUserDeleted_ok_events h
    | exact handleOrderCreated_ok_events h
    | exact handleNotificationSent_ok_events h
    | exact handlePurchaseCreated_ok_events h
    | (cases h; try rfl)

/-- A successfully built consumed-event document carries the broker
provenance, `source: kafka` and `processed: false`. -/
theorem mkConsumedEvent_ok_fields {s : SysState} {m : KafkaMessage} {j : JsonVal}
    {doc : EventDoc} (h : KafkaConsumer.mkConsumedEvent s m j = .ok doc) :
    doc.source = "kafka" ∧ doc.processed = false ∧ doc.id = s.nextEventId ∧
    doc.metadata = { kafkaOffset := some m.offset, kafkaPartition := some m.partition,
                     kafkaTopic := some m.topic, retryCount := 0, errorMessage := none } := by
  unfold KafkaConsumer.mkConsumedEvent at h
  simp only [bind, Except.bind, pure, Except.pure] at h
  repeat' split at h
  all_goals (cases h; try exact ⟨rfl, rfl, rfl, rfl⟩)

theorem userNameStep_error_code {d : Option JsonVal} {err : JsError}
    (h : userNameStep d = .error err) : err.code = none := by
  unfold userNameStep at h
  split at h
  any_goals (cases h; try rfl)
  rename_i v hne heq
  cases hcv : castString v with
  | none => rw [hcv] at h; cases h; rfl
  | some str =>
    rw [hcv] at h
    dsimp only at h
    by_cases hc : (2 ≤ (jsTrim str).length && (jsTrim str).length ≤ 100) = true
    · rw [if_pos hc] at h; cases h
    · rw [if_neg hc] at h; cases h; rfl

theorem userAgeStep_error_code {d : Option JsonVal} {err : JsError}
    (h : userAgeStep d = .error err) : err.code = none := by
  unfold userAgeStep at h
  split at h
  any_goals (cases h; try rfl)
  rename_i v hne heq
  cases hcv : castNumber v with
  | none => rw [hcv] at h; cases h; rfl
  | some n =>
    rw [hcv] at h
    dsimp only at h
    by_cases hc : (0 ≤ n && n ≤ 150) = true
    · rw [if_pos hc] at h; cases h
    · rw [if_neg hc] at h; cases h; rfl

theorem userActiveStep_error_code {d : Option JsonVal} {err : JsError}
    (h : userActiveStep d = .error err) : err.code = none := by
  unfold userActiveStep at h
  split at h
  any_goals (cases h; try rfl)
  rename_i v hne heq
  cases hcv : castBoolean v with
  | none => rw [hcv] at h; cases h; rfl
  | some b => rw [hcv] at h; cases h

theorem any_email_false_of_count_zero {us : List UserDoc} {e : String}
    (h : countUsersWithEmail us e = 0) : (us.any fun u => u.email == e) = false := by
  rw [List.any_eq_false]
  intro x hx
  have hnil : us.filter (fun u => u.email == e) = [] :=
    List.length_eq_zero.mp h
  have := List.filter_eq_nil_iff.mp hnil x hx
  simpa using this

/-- Claim C1 (code bug). The spec says a successfully handled broker
message leaves its Event with `processed = true`; the code never issues
that update. At the concrete `user.created` message `msgA` the side-effect
handler succeeds (the User is inserted), yet the stored Event still has
`source = "kafka"`, `processed = false` and `retryCount = 0`. -/
theorem handleMessage_success_leaves_processed_false :
    KafkaConsumer.handleMessage s0 msgA = stateAfterA
    ∧ stateAfterA.users.map (fun u => u.email) = ["a@x.com"]
    ∧ stateAfterA.events.map (fun e => (e.source, e.processed, e.metadata.retryCount))
      = [("kafka", false, 0)] := by
  refine ⟨by decide, by decide, by decide⟩

/-- Claim C2 counterexample. For the decoded message `msgNoEmail` the
`user.created` handler throws (required email missing), yet the Event the
pipeline persisted keeps `retryCount = 0` and no `lastErrorMessage`: the
failure is not recorded on the same Event. -/
theorem handleMessage_handler_failure_counterexample :
    KafkaConsumer.processEvent stateAfterStoreNoEmail jsonNoEmail
      = .error (.validation "User validation failed: email: path email is required")
    ∧ (KafkaConsumer.handleMessage s0 msgNoEmail).events.map
        (fun e => (e.processed, e.metadata.retryCount, e.metadata.errorMessage))
      = [(false, 0, none)] := by
  refine ⟨by decide, by decide⟩

/-- Claim C2 (amended). When the side-effect handler of a decoded and
persisted message throws, the Event row is not lost: it remains in the
store with `processed = false`, but untouched — `retryCount` stays 0 and
no `lastErrorMessage` is recorded on it (the pipeline instead attempts a
separate `system.error` Event, whose save the Event schema rejects). -/
theorem handleMessage_handler_failure_keeps_event_row
    (s s1 : SysState) (m : KafkaMessage) (raw : String) (j : JsonVal)
    (doc : EventDoc) (err : JsError)
    (hv : m.value = some (.wellFormed raw j))
    (hraw : raw ≠ "")
    (hmk : KafkaConsumer.mkConsumedEvent s m j = .ok doc)
    (hst : KafkaConsumer.storeEvent s doc = .ok s1)
    (hpe : KafkaConsumer.processEvent s1 j = .error err) :
    (KafkaConsumer.handleMessage s m).events = s.events ++ [doc]
    ∧ doc.processed = false
    ∧ doc.metadata.retryCount = 0
    ∧ doc.metadata.errorMessage = none := by
  obtain ⟨hsrc, hproc, hid, hmeta⟩ := mkConsumedEvent_ok_fields hmk
  refine ⟨?_, hproc, by rw [hmeta], by rw [hmeta]⟩
  unfold KafkaConsumer.handleMessage
  rw [hv]
  have hr : (raw == "") = false := by simpa using hraw
  simp only [RawBody.raw, hr, Bool.false_eq_true, if_false, hmk, hst, hpe,
    storeFailedEvent_rejected]
  exact eventSave_ok_events hst

/-- Claim C2 witness: the amended theorem applied to `msgNoEmail`. -/
theorem handleMessage_handler_failure_keeps_event_row_witness :
    (KafkaConsumer.handleMessage s0 msgNoEmail).events = s0.events ++ [docNoEmail]
    ∧ docNoEmail.processed = false
    ∧ docNoEmail.metadata.retryCount = 0
    ∧ docNoEmail.metadata.errorMessage = none :=
  handleMessage_handler_failure_keeps_event_row s0 stateAfterStoreNoEmail msgNoEmail
    "payloadB" jsonNoEmail docNoEmail
    (.validation "User validation failed: email: path email is required")
    rfl (by decide) (by decide) (by decide) (by decide)

/-- Claim C3 (code bug). The spec says an undecodable body is quarantined
as a persisted `system.error` Event; but `system.error` is missing from
the `EventSchema` type enum, so the quarantine save always fails
validation and is swallowed: at the poison message `msgBad` the handler
returns success with the store completely unchanged — no Event at all is
persisted. -/
theorem handleMessage_poison_message_not_quarantined :
    KafkaConsumer.handleMessage s0 msgBad = s0
    ∧ eventTypeEnum.contains "system.error" = false := by
  refine ⟨by decide, by decide⟩

/-- Claim C4 (confirmed). `retryFailedEvents` selects at most `maxBatch`
Events (default 10), ordered by timestamp ascending, and every selected
Event is a stored Event with `processed = false` and `retryCount < 3`; an
Event with `retryCount = 3` is never selected regardless of the bound. -/
theorem retryFailedEvents_selection_spec (s : SysState) (q : Option Nat) :
    (EventController.retrySelection s q).length ≤ q.getD 10
    ∧ List.Pairwise (fun a b => a.timestamp ≤ b.timestamp)
        (EventController.retrySelection s q)
    ∧ (∀ e, e ∈ EventController.retrySelection s q →
        e ∈ s.events ∧ e.processed = false ∧ e.metadata.retryCount < 3)
    ∧ (∀ e, e ∈ s.events → e.metadata.retryCount = 3 →
        e ∉ EventController.retrySelection s q) := by
  have hmemto : ∀ e, e ∈ EventController.retrySelection s q →
      e ∈ s.events ∧ e.processed = false ∧ e.metadata.retryCount < 3 := by
    intro e he
    unfold EventController.retrySelection at he
    have h1 := (List.take_sublist _ _).subset he
    rw [List.mem_insertionSort] at h1
    rw [List.mem_filter] at h1
    refine ⟨h1.1, ?_, ?_⟩
    · have h2 := h1.2
      simp only [Bool.and_eq_true, Bool.not_eq_true'] at h2
      exact h2.1
    · have h2 := h1.2
      simp only [Bool.and_eq_true, decide_eq_true_eq] at h2
      exact h2.2
  refine ⟨?_, ?_, hmemto, ?_⟩
  · unfold EventController.retrySelection
    exact List.length_take_le _ _
  · unfold EventController.retrySelection
    have hs := List.sorted_insertionSort (fun a b : EventDoc => a.timestamp ≤ b.timestamp)
      (s.events.filter fun e => !e.processed && e.metadata.retryCount < 3)
    exact List.Pairwise.sublist (List.take_sublist _ _) hs
  · intro e hmem h3 hsel
    have := (hmemto e hsel).2.2
    omega

/-- Claim C4 witness: on `sRetry` with bound 2, the pending event is
selected with the stated properties and the event at the ceiling is not. -/
theorem retryFailedEvents_selection_spec_witness :
    (EventController.retrySelection sRetry (some 2)).length ≤ 2
    ∧ (mkPendingEvent 4).processed = false
    ∧ (mkPendingEvent 4).metadata.retryCount < 3
    ∧ evCeiling ∉ EventController.retrySelection sRetry (some 2) := by
  have h := retryFailedEvents_selection_spec sRetry (some 2)
  exact ⟨h.1, (h.2.2.1 (mkPendingEvent 4) (by decide)).2.1,
    (h.2.2.1 (mkPendingEvent 4) (by decide)).2.2,
    h.2.2.2 evCeiling (by decide) (by decide)⟩

/-- Claim C5 (code bug). The spec says the coordinator re-invokes the
side-effect handler and sets `processed = true` only on its success; the
code's retry body is an acknowledged placeholder ("Here you would
implement the actual retry logic") that marks the Event processed
unconditionally. At the failing input the Event's handler would still
throw, the User store shows no handler ran, and yet the Event ends up
`processed = true` with `retryCount = 1`. -/
theorem retryFailedEvents_no_rerun_at_failing_input :
    ((EventController.retryFailedEvents stateAfterStoreNoEmail none).1.events.map
      (fun e => (e.processed, e.metadata.retryCount))) = [(true, 1)]
    ∧ (EventController.retryFailedEvents stateAfterStoreNoEmail none).1.users = []
    ∧ KafkaConsumer.handleUserCreated
        (EventController.retryFailedEvents stateAfterStoreNoEmail none).1 (some dNoEmail)
      = .error (.validation "User validation failed: email: path email is required") := by
  refine ⟨by decide, by decide, by decide⟩

/-- The actual retry behavior, in general: for each selected Event the
coordinator increments `retryCount`, clears `lastErrorMessage` and sets
`processed = true` unconditionally, without re-invoking any side-effect
handler (the User collection is untouched); the call returns the number of
selected Events. -/
theorem retryFailedEvents_marks_processed_without_rerun (s : SysState) (q : Option Nat) :
    (EventController.retryFailedEvents s q).1.users = s.users
    ∧ (EventController.retryFailedEvents s q).2
        = (EventController.retrySelection s q).length
    ∧ ∀ e, e ∈ s.events →
        ((EventController.retrySelection s q).any fun f => f.id == e.id) = true →
        ({ e with processed := true,
                  metadata := { e.metadata with
                                retryCount := e.metadata.retryCount + 1,
                                errorMessage := none } } : EventDoc)
          ∈ (EventController.retryFailedEvents s q).1.events := by
  refine ⟨rfl, rfl, ?_⟩
  intro e he hsel
  unfold EventController.retryFailedEvents
  dsimp only
  have hmem := List.mem_map_of_mem (l := s.events) (a := e) (f := fun e : EventDoc =>
    if (EventController.retrySelection s q).any (fun f => f.id == e.id) then
      { e with processed := true,
               metadata := { e.metadata with
                             retryCount := e.metadata.retryCount + 1,
                             errorMessage := none } }
    else e) he
  dsimp only at hmem
  rw [hsel] at hmem
  simpa using hmem

/-- The general retry-behavior theorem applied to the state holding the
failed `user.created` Event. -/
theorem retryFailedEvents_marks_processed_without_rerun_witness :
    (EventController.retryFailedEvents stateAfterStoreNoEmail none).1.users
      = stateAfterStoreNoEmail.users
    ∧ (EventController.retryFailedEvents stateAfterStoreNoEmail none).2
      = (EventController.retrySelection stateAfterStoreNoEmail none).length
    ∧ ({ docNoEmail with
         processed := true,
         metadata := { docNoEmail.metadata with
                       retryCount := docNoEmail.metadata.retryCount + 1,
                       errorMessage := none } } : EventDoc)
      ∈ (EventController.retryFailedEvents stateAfterStoreNoEmail none).1.events := by
  have h := retryFailedEvents_marks_processed_without_rerun stateAfterStoreNoEmail none
  exact ⟨h.1, h.2.1, h.2.2 docNoEmail (by decide) (by decide)⟩

/-- Claim C6 counterexample. A successfully decoded message whose `type`
("user.signup") is outside the `EventSchema` enum is not persisted at all:
the save fails validation, the fallback quarantine also fails, and the
store is left unchanged. -/
theorem handleMessage_unknown_type_not_persisted :
    KafkaConsumer.handleMessage s0 msgUnknown = s0
    ∧ msgUnknown.value = some (.wellFormed "payloadC" jsonUnknown)
    ∧ eventTypeEnum.contains "user.signup" = false := by
  refine ⟨by decide, rfl, by decide⟩

/-- Claim C6 (amended). For every decoded broker message whose constructed
Event passes `EventSchema` validation, the pipeline persists the Event —
with `source = "kafka"`, `processed = false` and provenance
`{topic, partition, offset, retryCount: 0}` — before dispatching the
side-effect handler: it is in the final store whatever the handler does. -/
theorem handleMessage_persists_before_dispatch (s : SysState) (m : KafkaMessage)
    (raw : String) (j : JsonVal) (doc : EventDoc)
    (hv : m.value = some (.wellFormed raw j))
    (hraw : raw ≠ "")
    (hmk : KafkaConsumer.mkConsumedEvent s m j = .ok doc)
    (hvalid : eventDocValid doc = true) :
    doc ∈ (KafkaConsumer.handleMessage s m).events
    ∧ doc.source = "kafka" ∧ doc.processed = false
    ∧ doc.metadata = { kafkaOffset := some m.offset, kafkaPartition := some m.partition,
                       kafkaTopic := some m.topic, retryCount := 0,
                       errorMessage := none } := by
  obtain ⟨hsrc, hproc, hid, hmeta⟩ := mkConsumedEvent_ok_fields hmk
  refine ⟨?_, hsrc, hproc, hmeta⟩
  unfold KafkaConsumer.handleMessage
  rw [hv]
  have hr : (raw == "") = false := by simpa using hraw
  have hstore : KafkaConsumer.storeEvent s doc
      = .ok { s with events := s.events ++ [doc], nextEventId := s.nextEventId + 1 } := by
    unfold KafkaConsumer.storeEvent eventSave
    rw [if_pos hvalid]
  cases hpe : KafkaConsumer.processEvent
      { s with events := s.events ++ [doc], nextEventId := s.nextEventId + 1 } j with
  | ok s2 =>
    simp only [RawBody.raw, hr, Bool.false_eq_true, if_false, hmk, hstore, hpe]
    have := processEvent_ok_events hpe
    rw [this]
    simp
  | error err =>
    simp only [RawBody.raw, hr, Bool.false_eq_true, if_false, hmk, hstore, hpe,
      storeFailedEvent_rejected]
    simp

/-- Claim C6 witness: the amended theorem applied to `msgA`. -/
theorem handleMessage_persists_before_dispatch_witness :
    docA ∈ (KafkaConsumer.handleMessage s0 msgA).events
    ∧ docA.source = "kafka" ∧ docA.processed = false
    ∧ docA.metadata = { kafkaOffset := some msgA.offset,
                        kafkaPartition := some msgA.partition,
                        kafkaTopic := some msgA.topic, retryCount := 0,
                        errorMessage := none } :=
  handleMessage_persists_before_dispatch s0 msgA "payloadA" jsonA docA
    rfl (by decide) (by decide) (by decide)

/-- Claim C7 (confirmed). If a `user.created` delivery succeeds from a
store without that email, then a second delivery of the same data is also
treated as success (the duplicate-key error, code 11000, is swallowed),
leaves the store unchanged, and exactly one User with the email exists. -/
theorem handleUserCreated_duplicate_idempotent (s s₁ : SysState) (d : Option JsonVal)
    (e : String)
    (h1 : KafkaConsumer.handleUserCreated s d = .ok s₁)
    (he : userEmailStep d = .ok e)
    (h0 : countUsersWithEmail s.users e = 0) :
    KafkaConsumer.handleUserCreated s₁ d = .ok s₁
    ∧ countUsersWithEmail s₁.users e = 1 := by
  have hany := any_email_false_of_count_zero h0
  unfold KafkaConsumer.handleUserCreated userSave at h1 ⊢
  simp only [bind, Except.bind, pure, Except.pure] at h1 ⊢
  rw [he] at h1 ⊢
  cases hn : userNameStep d with
  | error err => simp [hn, userNameStep_error_code hn] at h1
  | ok nm =>
  simp only [hn] at h1 ⊢
  cases ha : userAgeStep d with
  | error err => simp [ha, userAgeStep_error_code ha] at h1
  | ok ag =>
  simp only [ha] at h1 ⊢
  cases hb : userActiveStep d with
  | error err => simp [hb, userActiveStep_error_code hb] at h1
  | ok act =>
  simp only [hb] at h1 ⊢
  rw [hany] at h1
  simp only [Bool.false_eq_true, if_false] at h1
  cases h1
  refine ⟨?_, ?_⟩
  · simp [List.any_append, hany, JsError.code, throw, throwThe, MonadExceptOf.throw]
  · show countUsersWithEmail (s.users ++
      [{ id := objectIdStr s.nextUserId, email := e, name := nm, age := ag,
         isActive := act, metadataSource := "kafka" }]) e = 1
    unfold countUsersWithEmail
    rw [List.filter_append]
    have hnil : s.users.filter (fun u => u.email == e) = [] := List.length_eq_zero.mp h0
    rw [hnil]
    simp

/-- Claim C7 witness: two deliveries of `dataA` starting from the empty
store leave exactly one User with email `a@x.com`. -/
theorem handleUserCreated_duplicate_idempotent_witness :
    KafkaConsumer.handleUserCreated userStateAfterA (some dataA) = .ok userStateAfterA
    ∧ countUsersWithEmail userStateAfterA.users "a@x.com" = 1 :=
  handleUserCreated_duplicate_idempotent s0 userStateAfterA (some dataA) "a@x.com"
    (by decide) (by decide) (by decide)

/-- Claim C8 counterexample. A message without a `userId` published with
no explicit key is routed with the literal key "default", which is not the
message's `userId` (there is none). -/
theorem sendMessage_no_userId_key_default :
    (KafkaProducer.sendMessage true "system-events" msgSys none).map
      (fun r => r.key) = .ok (.str "default")
    ∧ msgSys.getField "userId" = none := by
  refine ⟨by decide, by decide⟩

/-- Claim C8 (amended). For a message published without an explicit
partition key, the routing key equals the message's `userId` when that
field is a non-empty string, and is the literal "default" when the message
carries no `userId`. -/
theorem sendMessage_key_defaults_to_userId (conn : Bool) (topic : String)
    (message : JsonVal) (r : KafkaProducer.SentRecord)
    (h : KafkaProducer.sendMessage conn topic message none = .ok r) :
    (∀ u, message.getField "userId" = some (.str u) → u ≠ "" → r.key = .str u)
    ∧ (message.getField "userId" = none → r.key = .str "default") := by
  unfold KafkaProducer.sendMessage at h
  cases conn with
  | false => cases h
  | true =>
    simp only [Bool.not_true, Bool.false_eq_true, if_neg] at h
    cases h
    constructor
    · intro u hu hne
      simp [KafkaProducer.jsOrElse, Option.map, hu, jsTruthy, hne]
    · intro hu
      simp [KafkaProducer.jsOrElse, Option.map, hu]

/-- Claim C8 witness: the amended theorem applied to `msgWithUser`. -/
theorem sendMessage_key_defaults_to_userId_witness :
    sentWithUser.key = .str "u1" :=
  (sendMessage_key_defaults_to_userId true "user-events" msgWithUser sentWithUser
    (by decide)).1 "u1" (by decide) (by decide)

/-- Claim C9 (code bug). The repository's docs and the (unwired)
`validateRetryParams` validator cap the retry batch size at 50, but the
route applies no cap: with 51 eligible Events and `limit = 100` the call
reprocesses all 51; the default of 10 does hold. -/
theorem retryFailedEvents_batch_bound_uncapped :
    (EventController.retryFailedEvents s51 (some 100)).2 = 51
    ∧ (EventController.retryFailedEvents s51 none).2 = 10 := by
  refine ⟨by decide, by decide⟩

/-- Claim C10 (confirmed). A broker message with an absent or empty body
makes `handleMessage` return success immediately with the state unchanged:
no Event of any kind is persisted. -/
theorem handleMessage_empty_body_no_event (s : SysState) (m : KafkaMessage)
    (h : m.value = none ∨ ∃ b, m.value = some b ∧ b.raw = "") :
    KafkaConsumer.handleMessage s m = s := by
  unfold KafkaConsumer.handleMessage
  rcases h with h | ⟨b, hb, hraw⟩
  · rw [h]
  · rw [hb]
    simp [hraw]

/-- Claim C10 witness: the empty-body message leaves `s0` unchanged. -/
theorem handleMessage_empty_body_no_event_witness :
    KafkaConsumer.handleMessage s0 msgEmpty = s0 :=
  handleMessage_empty_body_no_event s0 msgEmpty (Or.inl rfl)
